import Mathlib

/-!
# x402-stacks SDK — verification of the protocol/signing core

Shallow embedding of the x402 payment client (`src/client.ts`), the axios
payment interceptor (`src/unnamed/part_000`, the V1 interceptor module) and
the memo codec (`src/utils.ts`), together with theorems settling the frozen
claims about retry bounds, one-shot payment markers, signer totality,
validation, expiration checks, and the memo / payment-response codecs.

Modelling conventions:
* JavaScript runtime values that flow through validation are modelled by the
  inductive `JsVal` (null, undefined, booleans, numbers, strings, plain
  objects). Arrays and functions are outside the modelled value space.
* Strings are modelled as Lean `String` (sequences of Unicode scalar values).
  JavaScript `substring` counts UTF-16 code units; the model's `Char`-wise
  `take`/`drop` agrees with it on all strings whose characters lie in the
  Basic Multilingual Plane, which covers every string used in the theorems.
* Machine-level integers do not occur: `BigInt` amounts are arbitrary
  precision and modelled by `Int`; JS `Date` timestamps are millisecond
  integers modelled by `Option Int`, with `none` standing for an Invalid
  Date (`NaN`), whose comparisons are always false.
* Fallible external collaborators (the `@stacks/transactions` chain SDK,
  `JSON.parse`/`JSON.stringify`) are parameters returning `Except`/`Option`;
  the code of this repository itself is embedded concretely.
-/

/-- A JavaScript runtime value, as far as the validators and the
interceptor inspect one. Objects are ordered key/value lists with the
first binding of a key taking effect, matching JS property lookup. -/
inductive JsVal where
  | obj (props : List (String × JsVal))
  | str (text : String)
  | num (value : Int)
  | bool (flag : Bool)
  | undef
  | null

/-- JS property lookup on an object's field list: first binding wins,
a missing property reads as `undefined`. -/
def lookupField (fields : List (String × JsVal)) (key : String) : JsVal :=
  match fields.find? (fun kv => kv.1 == key) with
  | some kv => kv.2
  | none => JsVal.undef

/-- `typeof` for modelled values. Note `typeof null === "object"` in JS. -/
def typeofStr : JsVal → String
  | JsVal.null => "object"
  | JsVal.undef => "undefined"
  | JsVal.bool _ => "boolean"
  | JsVal.num _ => "number"
  | JsVal.str _ => "string"
  | JsVal.obj _ => "object"

/-- `typeof v === "string"`. -/
def isStrVal (v : JsVal) : Bool :=
  match v with
  | JsVal.str _ => true
  | _ => false

/-- JS strict equality `v === s` against a string literal: true exactly
when `v` is that string. -/
def jsValEqStr (v : JsVal) (s : String) : Bool :=
  match v with
  | JsVal.str t => t == s
  | _ => false

/-- Read a property of a (known-object) value as a string; non-string or
missing properties read as `""`. Used only after structural validation has
established the property is a string, so the default is never load-bearing. -/
def jsFieldStr (v : JsVal) (key : String) : String :=
  match v with
  | JsVal.obj fields =>
    match lookupField fields key with
    | JsVal.str s => s
    | _ => ""
  | _ => ""

/-- The six-field structural check shared verbatim by both validator
implementations (`client.ts` lines 570-579 and the interceptor module
lines 127-135): the six required properties are strings and `network` is
exactly `"mainnet"` or `"testnet"`. -/
def validShape (fields : List (String × JsVal)) : Bool :=
  isStrVal (lookupField fields "maxAmountRequired") &&
  isStrVal (lookupField fields "resource") &&
  isStrVal (lookupField fields "payTo") &&
  isStrVal (lookupField fields "network") &&
  isStrVal (lookupField fields "nonce") &&
  isStrVal (lookupField fields "expiresAt") &&
  (jsValEqStr (lookupField fields "network") "mainnet" ||
   jsValEqStr (lookupField fields "network") "testnet")

/-- `X402PaymentClient.isValidPaymentRequest` (`client.ts` lines 569-580).
The guard is `typeof request === 'object'`; since `typeof null` is
`"object"` in JavaScript, a `null` input passes the guard and the
subsequent property access `request.maxAmountRequired` throws a
`TypeError`, modelled as the `Except.error` branch. -/
def isValidPaymentRequestClient (request : JsVal) : Except String Bool :=
  match request with
  | JsVal.null =>
    Except.error "TypeError: Cannot read properties of null (reading maxAmountRequired)"
  | JsVal.obj fields => Except.ok (validShape fields)
  | _ => Except.ok false

/-- `isValidPaymentRequest` of the interceptor module (lines 122-136).
It first rejects falsy values and non-objects (`!data || typeof data !==
'object'`), so it is total: every non-object input yields `false`. -/
def isValidPaymentRequestV1 (data : JsVal) : Bool :=
  match data with
  | JsVal.obj fields => validShape fields
  | _ => false

/-- Modelled from the claim's words, for comparison with the source
validators: the input is a mapping containing string-valued
`maxAmountRequired`, `resource`, `payTo`, `network`, `nonce` and
`expiresAt`, with `network` exactly `"mainnet"` or `"testnet"`. -/
def specValidPaymentShape : JsVal → Bool
  | JsVal.obj fields =>
    isStrVal (lookupField fields "maxAmountRequired") &&
    isStrVal (lookupField fields "resource") &&
    isStrVal (lookupField fields "payTo") &&
    isStrVal (lookupField fields "network") &&
    isStrVal (lookupField fields "nonce") &&
    isStrVal (lookupField fields "expiresAt") &&
    (jsValEqStr (lookupField fields "network") "mainnet" ||
     jsValEqStr (lookupField fields "network") "testnet")
  | _ => false

/-- JS `<` on two `Date` values (millisecond timestamps); `none` models an
Invalid Date (`NaN`), and any comparison against `NaN` is false. -/
def jsDateLt : Option Int → Option Int → Bool
  | some a, some b => decide (a < b)
  | _, _ => false

/-- `s.substring(0, n)`: the first `n` UTF-16 code units (BMP model). -/
def jsSubstringTo (s : String) (n : Nat) : String :=
  String.mk (s.data.take n)

/-- `s.substring(n)`: drop the first `n` UTF-16 code units (BMP model). -/
def jsSubstringFrom (s : String) (n : Nat) : String :=
  String.mk (s.data.drop n)

/-- UTF-8 byte length of a string. -/
def utf8Len (s : String) : Nat :=
  (s.data.map Char.utf8Size).sum

/-- Character-list model of `s.startsWith(p)`. -/
def charsStartWith : List Char → List Char → Bool
  | _, [] => true
  | [], _ :: _ => false
  | c :: cs, p :: ps => c == p && charsStartWith cs ps

/-- Whether the pattern occurs as a contiguous run in the haystack. -/
def charsContain (pattern : List Char) : List Char → Bool
  | [] => charsStartWith [] pattern
  | c :: cs => charsStartWith (c :: cs) pattern || charsContain pattern cs

/-- Whether `t` occurs as a substring of `s`. -/
def strContains (s t : String) : Bool :=
  charsContain t.data s.data

/-- Character-list model of `s.split(sep)` for a one-character separator:
JS `split` never returns an empty list and keeps empty segments. -/
def splitOnChar (sep : Char) : List Char → List (List Char)
  | [] => [[]]
  | c :: cs =>
    let rest := splitOnChar sep cs
    if c == sep then [] :: rest
    else
      match rest with
      | r :: rs => (c :: r) :: rs
      | [] => [[c]]

/-- Strip leading and trailing whitespace from a character list. -/
def trimChars (cs : List Char) : List Char :=
  ((cs.dropWhile Char.isWhitespace).reverse.dropWhile Char.isWhitespace).reverse

/-- Read a digit sequence in the given radix; `none` on an empty list or
any character outside the digit set. -/
def parseRadix (radix : Nat) (digitVal : Char → Option Nat) : List Char → Option Nat
  | [] => none
  | cs => cs.foldl
      (fun acc c =>
        match acc, digitVal c with
        | some a, some d => some (a * radix + d)
        | _, _ => none)
      (some 0)

/-- Decimal digit value, read off the code point. -/
def decDigitVal (c : Char) : Option Nat :=
  let cp := c.toNat
  if 48 ≤ cp && cp ≤ 57 then some (cp - 48) else none

/-- Hexadecimal digit value, read off the code point (digits, then the
lowercase and uppercase letter ranges). -/
def hexDigitVal (c : Char) : Option Nat :=
  let cp := c.toNat
  if 48 ≤ cp && cp ≤ 57 then some (cp - 48)
  else if 97 ≤ cp && cp ≤ 102 then some (cp - 87)
  else if 65 ≤ cp && cp ≤ 70 then some (cp - 55)
  else none

/-- Binary digit value. -/
def binDigitVal (c : Char) : Option Nat :=
  let cp := c.toNat
  if cp = 48 then some 0 else if cp = 49 then some 1 else none

/-- Octal digit value, read off the code point. -/
def octDigitVal (c : Char) : Option Nat :=
  let cp := c.toNat
  if 48 ≤ cp && cp ≤ 55 then some (cp - 48) else none

/-- The JS `BigInt(string)` conversion (`StringToBigInt`): trims
whitespace; an empty remainder is `0`; otherwise an optionally signed
decimal digit sequence, or an unsigned `0x`/`0o`/`0b` radix form; anything
else throws (`none`). Fractional or exponent notation is rejected. -/
def jsBigInt (s : String) : Option Int :=
  match trimChars s.data with
  | [] => some 0
  | '-' :: rest => (parseRadix 10 decDigitVal rest).map (fun n => -(n : Int))
  | '+' :: rest => (parseRadix 10 decDigitVal rest).map (fun n => (n : Int))
  | '0' :: 'x' :: rest => (parseRadix 16 hexDigitVal rest).map (fun n => (n : Int))
  | '0' :: 'X' :: rest => (parseRadix 16 hexDigitVal rest).map (fun n => (n : Int))
  | '0' :: 'o' :: rest => (parseRadix 8 octDigitVal rest).map (fun n => (n : Int))
  | '0' :: 'O' :: rest => (parseRadix 8 octDigitVal rest).map (fun n => (n : Int))
  | '0' :: 'b' :: rest => (parseRadix 2 binDigitVal rest).map (fun n => (n : Int))
  | '0' :: 'B' :: rest => (parseRadix 2 binDigitVal rest).map (fun n => (n : Int))
  | cs => (parseRadix 10 decDigitVal cs).map (fun n => (n : Int))

/-! ## Memo codec (`src/utils.ts` lines 153-210) -/

/-- The result of `parsePaymentMemo`: fields absent unless populated. -/
structure ParsedMemo where
  resource : Option String := none
  nonce : Option String := none
  custom : Option (List (String × String)) := none
deriving DecidableEq, Repr

/-- JS object assignment `custom[key] = value`: overwrite the existing
binding of `key`, else append a new one (insertion order preserved). -/
def upsert : List (String × String) → String → String → List (String × String)
  | [], key, value => [(key, value)]
  | (k, v) :: rest, key, value =>
    if k == key then (key, value) :: rest else (k, v) :: upsert rest key value

/-- One step of the parse loop (`utils.ts` lines 174-188): split the
segment on `=`, destructure the first two pieces as `[key, value]`, skip
segments where either is falsy (missing or empty), route `resource` and
`nonce` to their fields and everything else into `custom`. -/
def parseMemoStep (result : ParsedMemo) (part : List Char) : ParsedMemo :=
  match splitOnChar '=' part with
  | keyChars :: valueChars :: _ =>
    let key := String.mk keyChars
    let value := String.mk valueChars
    if key != "" && value != "" then
      if key == "resource" then { result with resource := some value }
      else if key == "nonce" then { result with nonce := some value }
      else
        { result with
          custom := some (upsert (result.custom.getD []) key value) }
    else result
  | _ => result

/-- `parsePaymentMemo` (`utils.ts` lines 153-191): empty result unless the
memo starts with `"x402:"`; otherwise strip the prefix, split on commas,
and fold the segment parser over the parts. -/
def parsePaymentMemo (memo : String) : ParsedMemo :=
  if charsStartWith memo.data "x402:".data then
    let content := memo.data.drop 5
    let parts := splitOnChar ',' content
    parts.foldl parseMemoStep {}
  else {}

/-- `createPaymentMemo` (`utils.ts` lines 196-210): emits
`x402:<resource>,nonce=<nonce>` followed by `,key=value` for each custom
entry in iteration order. Note the resource is emitted bare, without a
`resource=` key. -/
def createPaymentMemo (resource nonce : String)
    (custom : Option (List (String × String))) : String :=
  let memo := "x402:" ++ resource ++ ",nonce=" ++ nonce
  match custom with
  | none => memo
  | some entries =>
    entries.foldl (fun m kv => m ++ "," ++ kv.1 ++ "=" ++ kv.2) memo

/-! ## Payment signer (`src/client.ts` lines 32-219, 355-409)

The `@stacks/transactions` collaborator is a parameter record: address
derivation and transaction construction may fail, modelled as
`Except String` with the thrown message as the error (the source preserves
`error.message` in every catch handler). `serialize()` is folded into the
construction oracle, which directly returns the serialized hex string. -/

/-- Token type enum (`types.ts` line 13). -/
inductive TokenType where
  | STX
  | sBTC
  | USDCx
deriving DecidableEq, Repr

/-- Display name of a token type, as interpolated into error messages. -/
def tokenTypeStr : TokenType → String
  | TokenType.STX => "STX"
  | TokenType.sBTC => "sBTC"
  | TokenType.USDCx => "USDCx"

/-- `TokenContract` (`types.ts` lines 18-23). -/
structure TokenContract where
  address : String
  name : String
deriving DecidableEq, Repr

/-- `X402PaymentRequired` (`types.ts` lines 33-60). The `network` field is
kept as a string: values arrive from the wire and are only constrained by
the validator. -/
structure X402PaymentRequired where
  maxAmountRequired : String
  resource : String
  payTo : String
  network : String
  nonce : String
  expiresAt : String
  memo : Option String := none
  tokenType : Option TokenType := none
  tokenContract : Option TokenContract := none
deriving DecidableEq, Repr

/-- `PaymentDetails` (`types.ts` lines 65-95). -/
structure PaymentDetails where
  recipient : String
  amount : Int
  senderKey : String
  network : String
  memo : Option String := none
  nonce : Option Int := none
  fee : Option Int := none
  tokenType : TokenType := TokenType.STX
  tokenContract : Option TokenContract := none
deriving DecidableEq, Repr

/-- `SignedPaymentResult` (`types.ts` lines 419-431). -/
structure SignedPaymentResult where
  signedTransaction : String
  success : Bool
  senderAddress : Option String := none
  error : Option String := none
deriving DecidableEq, Repr

/-- Options passed to `makeSTXTokenTransfer` (`client.ts` lines 134-142). -/
structure STXTxOptions where
  recipient : String
  amount : Int
  senderKey : String
  network : String
  memo : String
  nonce : Option Int := none
  fee : Option Int := none
deriving DecidableEq, Repr

/-- A Clarity value argument, as built by the SIP-010 branches. -/
inductive ClarityValue where
  | uintCV (s : String)
  | principalCV (s : String)
  | someBuff (s : String)
  | noneCV
deriving DecidableEq, Repr

/-- Options passed to `makeContractCall` (`client.ts` lines 191-201). -/
structure CCTxOptions where
  contractAddress : String
  contractName : String
  functionName : String
  functionArgs : List ClarityValue
  senderKey : String
  network : String
  postConditionMode : String
  nonce : Option Int := none
  fee : Option Int := none
deriving DecidableEq, Repr

/-- The `@stacks/transactions` collaborator boundary: each operation may
throw, modelled as `Except` with the thrown message. The construction
oracles return the serialized signed transaction. -/
structure ChainSDK where
  getAddressFromPrivateKey : String → String → Except String String
  makeSTXTokenTransfer : STXTxOptions → Except String String
  makeContractCall : CCTxOptions → Except String String

/-- The `paymentDetails` record built by `signPayment` (`client.ts` lines
58-66): recipient is `payTo`, the memo is `nonce.substring(0, 34)`
(the first 34 UTF-16 code units, *not* 34 bytes), and the token type is
defaulted to STX. -/
def mkPaymentDetails (privateKey : String) (pr : X402PaymentRequired)
    (amount : Int) : PaymentDetails :=
  { recipient := pr.payTo
    amount := amount
    senderKey := privateKey
    network := pr.network
    memo := some (jsSubstringTo pr.nonce 34)
    tokenType := pr.tokenType.getD TokenType.STX
    tokenContract := pr.tokenContract }

/-- `signSTXTransfer` (`client.ts` lines 123-160): derive the sender
address, build the native-transfer options (memo defaulted to `""`,
nonce/fee only when supplied) and sign; any thrown error becomes a
failure result with the message preserved. -/
def signSTXTransfer (sdk : ChainSDK) (privateKey : String)
    (details : PaymentDetails) : SignedPaymentResult :=
  match sdk.getAddressFromPrivateKey details.senderKey
      (if details.network == "mainnet" then "mainnet" else "testnet") with
  | Except.error e =>
    { signedTransaction := "", success := false, error := some e }
  | Except.ok senderAddress =>
    match sdk.makeSTXTokenTransfer
      { recipient := details.recipient
        amount := details.amount
        senderKey := privateKey
        network := details.network
        memo := details.memo.getD ""
        nonce := details.nonce
        fee := details.fee } with
    | Except.error e =>
      { signedTransaction := "", success := false, error := some e }
    | Except.ok serialized =>
      { signedTransaction := serialized, success := true,
        senderAddress := some senderAddress }

/-- The SIP-010 `transfer` argument list shared by the sBTC and USDCx
branches (`client.ts` lines 183-188 and 373-378): `(amount, sender,
recipient, optional-memo)` where the memo argument is present only for a
truthy (present and nonempty) memo. -/
def sip010Args (amount : Int) (senderAddress recipient : String)
    (memo : Option String) : List ClarityValue :=
  [ClarityValue.uintCV (toString amount),
   ClarityValue.principalCV senderAddress,
   ClarityValue.principalCV recipient,
   match memo with
   | some m => if m == "" then ClarityValue.noneCV else ClarityValue.someBuff m
   | none => ClarityValue.noneCV]

/-- `signSBTCTransfer` (`client.ts` lines 165-219): derive the sender
address, require the token contract (throwing `Token contract required
for sBTC transfers` otherwise, caught by the local handler), build the
SIP-010 contract call and sign. -/
def signSBTCTransfer (sdk : ChainSDK) (privateKey : String)
    (details : PaymentDetails) : SignedPaymentResult :=
  match sdk.getAddressFromPrivateKey details.senderKey
      (if details.network == "mainnet" then "mainnet" else "testnet") with
  | Except.error e =>
    { signedTransaction := "", success := false, error := some e }
  | Except.ok senderAddress =>
    match details.tokenContract with
    | none =>
      { signedTransaction := "", success := false,
        error := some "Token contract required for sBTC transfers" }
    | some contract =>
      match sdk.makeContractCall
        { contractAddress := contract.address
          contractName := contract.name
          functionName := "transfer"
          functionArgs := sip010Args details.amount senderAddress
            details.recipient details.memo
          senderKey := privateKey
          network := details.network
          postConditionMode := "allow"
          nonce := details.nonce
          fee := details.fee } with
      | Except.error e =>
        { signedTransaction := "", success := false, error := some e }
      | Except.ok serialized =>
        { signedTransaction := serialized, success := true,
          senderAddress := some senderAddress }

/-- `signUSDCxTransfer` (`client.ts` lines 355-409): structurally
identical to the sBTC branch with the USDCx error message. -/
def signUSDCxTransfer (sdk : ChainSDK) (privateKey : String)
    (details : PaymentDetails) : SignedPaymentResult :=
  match sdk.getAddressFromPrivateKey details.senderKey
      (if details.network == "mainnet" then "mainnet" else "testnet") with
  | Except.error e =>
    { signedTransaction := "", success := false, error := some e }
  | Except.ok senderAddress =>
    match details.tokenContract with
    | none =>
      { signedTransaction := "", success := false,
        error := some "Token contract required for USDCx transfers" }
    | some contract =>
      match sdk.makeContractCall
        { contractAddress := contract.address
          contractName := contract.name
          functionName := "transfer"
          functionArgs := sip010Args details.amount senderAddress
            details.recipient details.memo
          senderKey := privateKey
          network := details.network
          postConditionMode := "allow"
          nonce := details.nonce
          fee := details.fee } with
      | Except.error e =>
        { signedTransaction := "", success := false, error := some e }
      | Except.ok serialized =>
        { signedTransaction := serialized, success := true,
          senderAddress := some senderAddress }

/-- `X402PaymentClient.signPayment` (`client.ts` lines 53-82): convert the
amount with `BigInt` (a conversion failure is caught by the outer handler
with the thrown `Cannot convert ... to a BigInt` message), default the
token type to STX, build the payment details and dispatch on token type. -/
def signPayment (sdk : ChainSDK) (privateKey : String)
    (pr : X402PaymentRequired) : SignedPaymentResult :=
  match jsBigInt pr.maxAmountRequired with
  | none =>
    { signedTransaction := "", success := false,
      error := some ("Cannot convert " ++ pr.maxAmountRequired ++ " to a BigInt") }
  | some amount =>
    let tokenType := pr.tokenType.getD TokenType.STX
    let details := mkPaymentDetails privateKey pr amount
    match tokenType with
    | TokenType.sBTC => signSBTCTransfer sdk privateKey details
    | TokenType.USDCx => signUSDCxTransfer sdk privateKey details
    | TokenType.STX => signSTXTransfer sdk privateKey details

/-! ## Retry orchestrator (`client.ts` `requestWithPayment`, lines 493-564)

The HTTP transport is a parameter: `responses i` is the server's answer to
the `i`-th request issued inside this call. Signing is a parameter
`signFn` (it stands for `this.signPayment`, whose own embedding is
`signPayment` above; the orchestrator claims hold for any signer). The
loop `while (attempt <= maxRetries)` is driven by fuel
`maxRetries + 1 - attempt`: the attempt counter starts at 0 and is
incremented exactly once per recursive call, so fuel `maxRetries + 1`
realizes the inclusive bound. -/

/-- One server answer: a success body, a 402 with its body, or any other
error (non-402 HTTP errors, transport failures), which the source
re-throws unchanged. -/
inductive ServerResponse where
  | ok (body : JsVal)
  | err402 (body : JsVal)
  | errOther (msg : String)

/-- Terminal outcome of one `requestWithPayment` call: the returned
response body, or the message of the error it throws. -/
inductive Outcome where
  | success (body : JsVal)
  | failure (msg : String)

/-- Observable trace of one `requestWithPayment` call: the outcome, the
number of HTTP requests issued, and the number of signer invocations. -/
structure RunResult where
  outcome : Outcome
  requests : Nat
  signCalls : Nat

/-- The body of the `while (attempt <= maxRetries)` loop (`client.ts`
lines 508-561). `fuel = maxRetries + 1 - attempt`; `reqIdx` counts
requests already issued and indexes the transport; `signs` counts signer
invocations. A 402 body is validated with the client's own (throwing)
validator — a thrown `TypeError` propagates out of the call — then
checked for expiration (`new Date(expiresAt) < new Date()`), then signed;
on signing success the attempt counter advances and the loop continues
with the artifact recorded. Falling out of the loop throws
`Max retries exceeded for payment request`. -/
def rwpGo (parseDate : String → Option Int) (now : Int)
    (signFn : JsVal → SignedPaymentResult)
    (responses : Nat → ServerResponse) :
    Nat → Nat → Nat → RunResult
  | 0, reqIdx, signs =>
    ⟨Outcome.failure "Max retries exceeded for payment request", reqIdx, signs⟩
  | fuel + 1, reqIdx, signs =>
    match responses reqIdx with
    | ServerResponse.ok body => ⟨Outcome.success body, reqIdx + 1, signs⟩
    | ServerResponse.errOther msg => ⟨Outcome.failure msg, reqIdx + 1, signs⟩
    | ServerResponse.err402 body =>
      match isValidPaymentRequestClient body with
      | Except.error e => ⟨Outcome.failure e, reqIdx + 1, signs⟩
      | Except.ok false =>
        ⟨Outcome.failure "Invalid x402 payment request from server", reqIdx + 1, signs⟩
      | Except.ok true =>
        if jsDateLt (parseDate (jsFieldStr body "expiresAt")) (some now) then
          ⟨Outcome.failure "Payment request has expired", reqIdx + 1, signs⟩
        else
          let signResult := signFn body
          if signResult.success then
            rwpGo parseDate now signFn responses fuel (reqIdx + 1) (signs + 1)
          else
            ⟨Outcome.failure
              ("Payment signing failed: " ++ signResult.error.getD "undefined"),
              reqIdx + 1, signs + 1⟩

/-- `requestWithPayment` (`client.ts` lines 493-564) with `maxRetries`
from the options (source default 1): run the loop from `attempt = 0`. -/
def requestWithPayment (parseDate : String → Option Int) (now : Int)
    (signFn : JsVal → SignedPaymentResult)
    (responses : Nat → ServerResponse) (maxRetries : Nat) : RunResult :=
  rwpGo parseDate now signFn responses (maxRetries + 1) 0 0

/-! ## Axios interceptor (interceptor module lines 138-221)

`paymentAttempted` is a module-level `WeakSet` of request config objects;
object identity is modelled by a numeric id and the set by a list of ids.
The V1 `signPayment` (module lines 70-117) throws on failure, so the
signing parameter here is `Except String String` returning the serialized
transaction. -/

/-- The action the rejection handler settles on for one error. -/
inductive IAction where
  | passthrough (msg : String)
  | reject (msg : String)
  | retry (cfgId : Nat) (headers : List (String × String))

/-- The observable result of one run of the rejection handler: the new
marker set, the action, and whether the signer was invoked. -/
structure IStep where
  state : List Nat
  action : IAction
  signerInvoked : Bool

/-- `paymentRequest.tokenType || 'STX'` (module line 208): the string
value when present and nonempty, else the `STX` default. -/
def tokenTypeHeader (data : JsVal) : String :=
  match data with
  | JsVal.obj fields =>
    match lookupField fields "tokenType" with
    | JsVal.str s => if s == "" then "STX" else s
    | _ => "STX"
  | _ => "STX"

/-- The rejection handler installed by `wrapAxiosWithPaymentV1` (module
lines 172-217): non-402 errors pass through; a 402 whose request config
is already in `paymentAttempted` is rejected with `Payment already
attempted for this request`; otherwise the config is marked, the body is
validated (total V1 validator), checked for expiration, and signed; on
signing success the same config object is re-issued with the `X-PAYMENT`
and `X-PAYMENT-TOKEN-TYPE` headers attached. -/
def handleError (parseDate : String → Option Int) (now : Int)
    (signFn : JsVal → Except String String)
    (st : List Nat) (cfgId : Nat) (status : Nat) (data : JsVal) : IStep :=
  if status != 402 then
    ⟨st, IAction.passthrough "non-402 error passed through", false⟩
  else if st.contains cfgId then
    ⟨st, IAction.reject "Payment already attempted for this request", false⟩
  else
    let st' := cfgId :: st
    if !(isValidPaymentRequestV1 data) then
      ⟨st', IAction.reject "Invalid x402 payment request from server", false⟩
    else if jsDateLt (parseDate (jsFieldStr data "expiresAt")) (some now) then
      ⟨st', IAction.reject "Payment request has expired", false⟩
    else
      match signFn data with
      | Except.error e =>
        ⟨st', IAction.reject ("Payment signing failed: " ++ e), true⟩
      | Except.ok tx =>
        ⟨st',
          IAction.retry cfgId
            [("X-PAYMENT", tx), ("X-PAYMENT-TOKEN-TYPE", tokenTypeHeader data)],
          true⟩

/-- Run the handler over a sequence of consecutive 402 responses for the
same request config object (the server repeatedly answering 402),
threading the module-level marker set; returns the actions taken and the
final marker set. -/
def run402s (parseDate : String → Option Int) (now : Int)
    (signFn : JsVal → Except String String)
    (st : List Nat) (cfgId : Nat) : List JsVal → List IAction × List Nat
  | [] => ([], st)
  | data :: rest =>
    let step := handleError parseDate now signFn st cfgId 402 data
    let tail := run402s parseDate now signFn step.state cfgId rest
    (step.action :: tail.1, tail.2)

/-- Count the retry actions in a handler trace. -/
def countRetries : List IAction → Nat
  | [] => 0
  | IAction.retry _ _ :: rest => countRetries rest + 1
  | _ :: rest => countRetries rest

/-! ## X-PAYMENT-RESPONSE codec (interceptor module lines 48-64)

`Buffer` base64 handling is implemented concretely (Node's decoder is
lenient: characters outside the alphabet, including padding, are skipped
and an incomplete trailing group of one sextet is dropped). The composite
`JSON.stringify` + UTF-8 encoding and its inverse are collaborator
parameters over byte lists; `JSON.parse` throwing is `none`. -/

/-- The standard base64 alphabet. -/
def b64Alphabet : List Char :=
  "ABCDEFGHIJKLMNOPQRSTUVWXYZabcdefghijklmnopqrstuvwxyz0123456789+/".data

/-- The character for a sextet value (always `< 64` at call sites). -/
def encodeB64Char (n : Nat) : Char :=
  b64Alphabet.getD n '?'

/-- The sextet value of a character; `none` outside the alphabet. -/
def decodeB64Char (c : Char) : Option Nat :=
  b64Alphabet.findIdx? (fun x => x == c)

/-- Pack bytes into sextets, three bytes to four sextets, with the
partial final group shifted left as in RFC 4648. -/
def toSextets : List Nat → List Nat
  | [] => []
  | [b0] => [b0 / 4, b0 % 4 * 16]
  | [b0, b1] => [b0 / 4, b0 % 4 * 16 + b1 / 16, b1 % 16 * 4]
  | b0 :: b1 :: b2 :: rest =>
    b0 / 4 :: (b0 % 4 * 16 + b1 / 16) :: (b1 % 16 * 4 + b2 / 64) :: b2 % 64 ::
      toSextets rest

/-- Unpack sextets back into bytes, four sextets to three bytes; a
trailing group of two or three sextets yields one or two bytes and a
lone trailing sextet is dropped. -/
def fromSextets : List Nat → List Nat
  | s0 :: s1 :: s2 :: s3 :: rest =>
    (s0 * 4 + s1 / 16) :: (s1 % 16 * 16 + s2 / 4) :: (s2 % 4 * 64 + s3) ::
      fromSextets rest
  | [s0, s1, s2] => [s0 * 4 + s1 / 16, s1 % 16 * 16 + s2 / 4]
  | [s0, s1] => [s0 * 4 + s1 / 16]
  | _ => []

/-- `Buffer.from(bytes).toString('base64')`: sextet characters followed by
padding to a multiple of four. -/
def b64encodeBytes (bytes : List Nat) : String :=
  let chars := (toSextets bytes).map encodeB64Char
  let pad : List Char :=
    match bytes.length % 3 with
    | 1 => ['=', '=']
    | 2 => ['=']
    | _ => []
  String.mk (chars ++ pad)

/-- `Buffer.from(s, 'base64')` (lenient Node semantics): skip characters
outside the alphabet, then unpack the sextets. -/
def b64decodeBytes (s : String) : List Nat :=
  fromSextets (s.data.filterMap decodeB64Char)

/-- `encodeXPaymentResponse` (module lines 62-64):
`Buffer.from(JSON.stringify(response)).toString('base64')`, with the
stringify-and-UTF-8 step a collaborator parameter. -/
def encodeXPaymentResponse (stringifyB : JsVal → List Nat) (response : JsVal) :
    String :=
  b64encodeBytes (stringifyB response)

/-- `decodeXPaymentResponse` (module lines 48-57): `null` (`none`) for a
falsy header (absent or empty); otherwise base64-decode and parse, with a
parse failure caught and turned into `null`. -/
def decodeXPaymentResponse (parseB : List Nat → Option JsVal)
    (header : Option String) : Option JsVal :=
  match header with
  | none => none
  | some h =>
    if h == "" then none
    else
      match parseB (b64decodeBytes h) with
      | none => none
      | some v => some v

/-- An object value carrying a string-valued property named `key`. -/
def hasStrField (v : JsVal) (key : String) : Bool :=
  match v with
  | JsVal.obj fields => isStrVal (lookupField fields key)
  | _ => false

/-! ## Concrete fixtures used by witnesses and counterexamples -/

/-- A structurally valid 402 body with an ISO expiry string. -/
def bodyOk : JsVal :=
  JsVal.obj
    [("maxAmountRequired", JsVal.str "1000000"),
     ("resource", JsVal.str "/resource"),
     ("payTo", JsVal.str "ST2EXAMPLEPAYTO"),
     ("network", JsVal.str "testnet"),
     ("nonce", JsVal.str "abc123"),
     ("expiresAt", JsVal.str "2099-01-01T00:00:00.000Z")]

/-- Date parsing oracle mapping every string to a far-future timestamp. -/
def pdFuture : String → Option Int := fun _ => some 4070908800000

/-- Date parsing oracle mapping every string to the epoch, used to realize
the `expiresAt` exactly equal to the current time. -/
def pdZero : String → Option Int := fun _ => some 0

/-- An always-successful signer for the orchestrator. -/
def sfOk : JsVal → SignedPaymentResult :=
  fun _ =>
    { signedTransaction := "cafe", success := true,
      senderAddress := some "STSENDER" }

/-- An always-successful (V1, throwing-style) signer for the interceptor. -/
def sfV1Ok : JsVal → Except String String := fun _ => Except.ok "cafe"

/-- A server answering 402 with `bodyOk` to every request. -/
def resp402s : Nat → ServerResponse := fun _ => ServerResponse.err402 bodyOk

/-- A server answering 402 first, then 200 with body `"done"`. -/
def respThenOk : Nat → ServerResponse := fun i =>
  if i == 0 then ServerResponse.err402 bodyOk
  else ServerResponse.ok (JsVal.str "done")

/-- A chain SDK oracle that always succeeds with fixed artifacts. -/
def trivialSDK : ChainSDK :=
  { getAddressFromPrivateKey := fun _ _ => Except.ok "STSENDER"
    makeSTXTokenTransfer := fun _ => Except.ok "aabb"
    makeContractCall := fun _ => Except.ok "ccdd" }

/-- A chain SDK oracle whose native-transfer branch returns the memo it
was handed, making the memo that reaches the collaborator observable. -/
def captureSDK : ChainSDK :=
  { getAddressFromPrivateKey := fun _ _ => Except.ok "STSENDER"
    makeSTXTokenTransfer := fun o => Except.ok o.memo
    makeContractCall := fun _ => Except.ok "" }

/-- A payment request whose amount string `BigInt` rejects, with a
fungible token type and no contract. -/
def prAbc : X402PaymentRequired :=
  { maxAmountRequired := "abc", resource := "/r", payTo := "ST2X"
    network := "testnet", nonce := "n1", expiresAt := "2099-01-01T00:00:00.000Z"
    tokenType := some TokenType.sBTC, tokenContract := none }

/-- A well-formed USDCx payment request missing its token contract. -/
def prNoContract : X402PaymentRequired :=
  { maxAmountRequired := "5000", resource := "/r", payTo := "ST2X"
    network := "mainnet", nonce := "n1", expiresAt := "2099-01-01T00:00:00.000Z"
    tokenType := some TokenType.USDCx, tokenContract := none }

/-- Thirty-four copies of `é` (a two-byte character): 34 UTF-16 code
units but 68 UTF-8 bytes. -/
def nonce34 : String := String.mk (List.replicate 34 'é')

/-- A native-token payment request whose nonce is `nonce34`. -/
def pr8 : X402PaymentRequired :=
  { maxAmountRequired := "1000000", resource := "/r", payTo := "ST2RECIPIENT"
    network := "testnet", nonce := nonce34
    expiresAt := "2099-01-01T00:00:00.000Z" }

/-- A payment-response object with `txId` and `status`. -/
def resp9 : JsVal :=
  JsVal.obj [("txId", JsVal.str "0xabc"), ("status", JsVal.str "ok")]

/-- A stringify oracle sending every value to the bytes `[123, 125]`. -/
def sB9 : JsVal → List Nat := fun _ => [123, 125]

/-- The matching parse oracle: recovers `resp9` from `[123, 125]`. -/
def pB9 : List Nat → Option JsVal := fun bs =>
  if bs = [123, 125] then some resp9 else none

/-! ## Theorems -/

/-- C6: the structural validator is claimed to return a boolean without
throwing on every input including `null`, and to accept exactly the
six-string-field mappings with `network` in {mainnet, testnet}. The
interceptor's validator satisfies the specification exactly, but the
client's validator (`client.ts` lines 569-580) guards only with
`typeof request === 'object'`, which `null` passes, so the following
property access throws a `TypeError` instead of returning `false`. -/
theorem c6_validator_throws_on_null :
    isValidPaymentRequestClient JsVal.null =
      Except.error
        "TypeError: Cannot read properties of null (reading maxAmountRequired)" ∧
    isValidPaymentRequestV1 JsVal.null = false ∧
    (∀ v, isValidPaymentRequestV1 v = specValidPaymentShape v) := by
  refine ⟨rfl, rfl, ?_⟩
  intro v
  cases v <;> rfl

/-- C7: the memo codec round-trip is claimed to recover `resource`
exactly, but `createPaymentMemo` emits the resource bare
(`x402:<resource>,nonce=...`) while `parsePaymentMemo` only populates
`resource` from a `resource=<value>` segment, so the round-trip loses the
resource on every input: at `resource = "foo"`, `nonce = "bar"` the
decoded resource is absent while the nonce is recovered. The non-prefixed
decode clause of the claim does hold. -/
theorem c7_roundtrip_loses_resource :
    createPaymentMemo "foo" "bar" none = "x402:foo,nonce=bar" ∧
    parsePaymentMemo (createPaymentMemo "foo" "bar" none) =
      { resource := none, nonce := some "bar", custom := none } ∧
    parsePaymentMemo "not-x402-prefixed" = { } := by
  refine ⟨rfl, ?_, ?_⟩ <;> decide

/-- C8: for a native-token request the payment details do carry
`recipient = payTo` and the `BigInt` amount, but the memo is
`nonce.substring(0, 34)` — the first 34 UTF-16 code units, not the first
34 bytes. At the 34-character nonce `éé…é` the whole nonce is kept and
the memo handed to the chain SDK (observed through `captureSDK`, whose
native-transfer oracle returns the memo it receives) is 68 UTF-8 bytes,
exceeding the claimed 34-byte bound that the source's own comment
(`Max 34 bytes for Stacks memo`) promises. -/
theorem c8_memo_byte_overflow :
    jsBigInt pr8.maxAmountRequired = some 1000000 ∧
    (mkPaymentDetails "key" pr8 1000000).recipient = pr8.payTo ∧
    (mkPaymentDetails "key" pr8 1000000).amount = 1000000 ∧
    (mkPaymentDetails "key" pr8 1000000).memo = some nonce34 ∧
    (signPayment captureSDK "key" pr8).signedTransaction = nonce34 ∧
    utf8Len nonce34 = 68 := by
  refine ⟨?_, rfl, rfl, ?_, ?_, ?_⟩ <;> decide

/-- C4 counterexample: a PaymentRequest with `tokenType = sBTC` and no
`tokenContract` whose `maxAmountRequired` is `"abc"` makes `BigInt`
throw before the contract check is ever reached, so `signPayment` fails
with the conversion message, which does not indicate a missing token
contract — refuting the claim as universally stated. -/
theorem c4_counterexample :
    prAbc.tokenType = some TokenType.sBTC ∧
    prAbc.tokenContract = none ∧
    (signPayment trivialSDK "key" prAbc).success = false ∧
    (signPayment trivialSDK "key" prAbc).error =
      some "Cannot convert abc to a BigInt" ∧
    strContains "Cannot convert abc to a BigInt" "Token contract" = false := by
  refine ⟨rfl, rfl, ?_, ?_, ?_⟩ <;> decide


/-- C4 (amended): for every PaymentRequest with a fungible token type
(`sBTC` or `USDCx`) and no `tokenContract`, *provided* the amount string
is one `BigInt` accepts and the sender address can be derived from the
key, `signPayment` fails with the message `Token contract required for
<token> transfers`. -/
theorem c4_missing_contract (sdk : ChainSDK) (key : String)
    (pr : X402PaymentRequired) (amount : Int) (addr : String)
    (htt : pr.tokenType = some TokenType.sBTC ∨
      pr.tokenType = some TokenType.USDCx)
    (hc : pr.tokenContract = none)
    (ha : jsBigInt pr.maxAmountRequired = some amount)
    (hk : sdk.getAddressFromPrivateKey key
      (if pr.network == "mainnet" then "mainnet" else "testnet") =
        Except.ok addr) :
    (signPayment sdk key pr).success = false ∧
    (signPayment sdk key pr).error =
      some ("Token contract required for "
        ++ tokenTypeStr (pr.tokenType.getD TokenType.STX) ++ " transfers") := by
  rcases htt with h | h
  · unfold signPayment
    rw [ha, h]
    dsimp only [Option.getD, mkPaymentDetails]
    unfold signSBTCTransfer
    rw [hk, hc]
    exact ⟨rfl, rfl⟩
  · unfold signPayment
    rw [ha, h]
    dsimp only [Option.getD, mkPaymentDetails]
    unfold signUSDCxTransfer
    rw [hk, hc]
    exact ⟨rfl, rfl⟩

/-- Witness for the amended C4 at a concrete USDCx request. -/
theorem c4_missing_contract_witness :
    (signPayment trivialSDK "key" prNoContract).success = false ∧
    (signPayment trivialSDK "key" prNoContract).error =
      some "Token contract required for USDCx transfers" := by
  exact c4_missing_contract trivialSDK "key" prNoContract 5000 "STSENDER"
    (Or.inr rfl) rfl (by decide) rfl

/-- The native-transfer signer always returns a discriminated result. -/
theorem signSTXTransfer_shape (sdk : ChainSDK) (key : String)
    (details : PaymentDetails) :
    ((signSTXTransfer sdk key details).success = true ∧
      (signSTXTransfer sdk key details).senderAddress.isSome = true) ∨
    ((signSTXTransfer sdk key details).success = false ∧
      (signSTXTransfer sdk key details).error.isSome = true) := by
  unfold signSTXTransfer
  split
  · exact Or.inr ⟨rfl, rfl⟩
  · split
    · exact Or.inr ⟨rfl, rfl⟩
    · exact Or.inl ⟨rfl, rfl⟩

/-- The sBTC signer always returns a discriminated result. -/
theorem signSBTCTransfer_shape (sdk : ChainSDK) (key : String)
    (details : PaymentDetails) :
    ((signSBTCTransfer sdk key details).success = true ∧
      (signSBTCTransfer sdk key details).senderAddress.isSome = true) ∨
    ((signSBTCTransfer sdk key details).success = false ∧
      (signSBTCTransfer sdk key details).error.isSome = true) := by
  unfold signSBTCTransfer
  split
  · exact Or.inr ⟨rfl, rfl⟩
  · split
    · exact Or.inr ⟨rfl, rfl⟩
    · split
      · exact Or.inr ⟨rfl, rfl⟩
      · exact Or.inl ⟨rfl, rfl⟩

/-- The USDCx signer always returns a discriminated result. -/
theorem signUSDCxTransfer_shape (sdk : ChainSDK) (key : String)
    (details : PaymentDetails) :
    ((signUSDCxTransfer sdk key details).success = true ∧
      (signUSDCxTransfer sdk key details).senderAddress.isSome = true) ∨
    ((signUSDCxTransfer sdk key details).success = false ∧
      (signUSDCxTransfer sdk key details).error.isSome = true) := by
  unfold signUSDCxTransfer
  split
  · exact Or.inr ⟨rfl, rfl⟩
  · split
    · exact Or.inr ⟨rfl, rfl⟩
    · split
      · exact Or.inr ⟨rfl, rfl⟩
      · exact Or.inl ⟨rfl, rfl⟩

/-- C3: `signPayment` never throws across its public boundary — for every
chain-SDK behaviour, key and payment request it returns a discriminated
result: success with a sender address, or failure with an error message. -/
theorem c3_signPayment_total (sdk : ChainSDK) (key : String)
    (pr : X402PaymentRequired) :
    ((signPayment sdk key pr).success = true ∧
      (signPayment sdk key pr).senderAddress.isSome = true) ∨
    ((signPayment sdk key pr).success = false ∧
      (signPayment sdk key pr).error.isSome = true) := by
  have hsp : signPayment sdk key pr =
      match jsBigInt pr.maxAmountRequired with
      | none =>
        { signedTransaction := "", success := false,
          error := some ("Cannot convert " ++ pr.maxAmountRequired ++ " to a BigInt") }
      | some amount =>
        match pr.tokenType.getD TokenType.STX with
        | TokenType.sBTC =>
          signSBTCTransfer sdk key (mkPaymentDetails key pr amount)
        | TokenType.USDCx =>
          signUSDCxTransfer sdk key (mkPaymentDetails key pr amount)
        | TokenType.STX =>
          signSTXTransfer sdk key (mkPaymentDetails key pr amount) := rfl
  rw [hsp]
  cases jsBigInt pr.maxAmountRequired with
  | none => exact Or.inr ⟨rfl, rfl⟩
  | some amount =>
    cases pr.tokenType.getD TokenType.STX with
    | sBTC => exact signSBTCTransfer_shape sdk key _
    | USDCx => exact signUSDCxTransfer_shape sdk key _
    | STX => exact signSTXTransfer_shape sdk key _

/-- Unfolding equation for the exhausted loop: falling out of
`while (attempt <= maxRetries)` throws the max-retries error without
issuing another request. -/
theorem rwpGo_zero (pd : String → Option Int) (now : Int)
    (sf : JsVal → SignedPaymentResult) (resp : Nat → ServerResponse)
    (reqIdx signs : Nat) :
    rwpGo pd now sf resp 0 reqIdx signs =
      ⟨Outcome.failure "Max retries exceeded for payment request",
        reqIdx, signs⟩ := rfl

/-- Unfolding equation for one loop iteration, with the intermediate
bindings reduced away. -/
theorem rwpGo_succ (pd : String → Option Int) (now : Int)
    (sf : JsVal → SignedPaymentResult) (resp : Nat → ServerResponse)
    (n reqIdx signs : Nat) :
    rwpGo pd now sf resp (n + 1) reqIdx signs =
      match resp reqIdx with
      | ServerResponse.ok body => ⟨Outcome.success body, reqIdx + 1, signs⟩
      | ServerResponse.errOther msg => ⟨Outcome.failure msg, reqIdx + 1, signs⟩
      | ServerResponse.err402 body =>
        match isValidPaymentRequestClient body with
        | Except.error e => ⟨Outcome.failure e, reqIdx + 1, signs⟩
        | Except.ok false =>
          ⟨Outcome.failure "Invalid x402 payment request from server",
            reqIdx + 1, signs⟩
        | Except.ok true =>
          if jsDateLt (pd (jsFieldStr body "expiresAt")) (some now) then
            ⟨Outcome.failure "Payment request has expired", reqIdx + 1, signs⟩
          else if (sf body).success then
            rwpGo pd now sf resp n (reqIdx + 1) (signs + 1)
          else
            ⟨Outcome.failure
              ("Payment signing failed: " ++ (sf body).error.getD "undefined"),
              reqIdx + 1, signs + 1⟩ := rfl

/-- Each loop iteration issues at most one request, so the request count
is bounded by the starting index plus the remaining fuel. -/
theorem rwpGo_requests_le (pd : String → Option Int) (now : Int)
    (sf : JsVal → SignedPaymentResult) (resp : Nat → ServerResponse) :
    ∀ fuel reqIdx signs,
      (rwpGo pd now sf resp fuel reqIdx signs).requests ≤ reqIdx + fuel := by
  intro fuel
  induction fuel with
  | zero =>
    intro reqIdx signs
    rw [rwpGo_zero]
    exact Nat.le_add_right reqIdx 0
  | succ n ih =>
    intro reqIdx signs
    rw [rwpGo_succ]
    cases resp reqIdx with
    | ok body =>
      show reqIdx + 1 ≤ reqIdx + (n + 1)
      omega
    | errOther msg =>
      show reqIdx + 1 ≤ reqIdx + (n + 1)
      omega
    | err402 body =>
      dsimp only
      cases isValidPaymentRequestClient body with
      | error e =>
        show reqIdx + 1 ≤ reqIdx + (n + 1)
        omega
      | ok b =>
        cases b with
        | false =>
          show reqIdx + 1 ≤ reqIdx + (n + 1)
          omega
        | true =>
          dsimp only
          by_cases hexp :
              jsDateLt (pd (jsFieldStr body "expiresAt")) (some now) = true
          · rw [if_pos hexp]
            show reqIdx + 1 ≤ reqIdx + (n + 1)
            omega
          · rw [if_neg hexp]
            by_cases hs : (sf body).success = true
            · rw [if_pos hs]
              have := ih (reqIdx + 1) (signs + 1)
              omega
            · rw [if_neg hs]
              show reqIdx + 1 ≤ reqIdx + (n + 1)
              omega

/-- The signer-invocation count never decreases across the loop. -/
theorem rwpGo_signs_le (pd : String → Option Int) (now : Int)
    (sf : JsVal → SignedPaymentResult) (resp : Nat → ServerResponse) :
    ∀ fuel reqIdx signs,
      signs ≤ (rwpGo pd now sf resp fuel reqIdx signs).signCalls := by
  intro fuel
  induction fuel with
  | zero =>
    intro reqIdx signs
    rw [rwpGo_zero]
  | succ n ih =>
    intro reqIdx signs
    rw [rwpGo_succ]
    cases resp reqIdx with
    | ok body => exact Nat.le.refl
    | errOther msg => exact Nat.le.refl
    | err402 body =>
      dsimp only
      cases isValidPaymentRequestClient body with
      | error e => exact Nat.le.refl
      | ok b =>
        cases b with
        | false => exact Nat.le.refl
        | true =>
          dsimp only
          by_cases hexp :
              jsDateLt (pd (jsFieldStr body "expiresAt")) (some now) = true
          · rw [if_pos hexp]
          · rw [if_neg hexp]
            by_cases hs : (sf body).success = true
            · rw [if_pos hs]
              have := ih (reqIdx + 1) (signs + 1)
              omega
            · rw [if_neg hs]
              show signs ≤ signs + 1
              omega

/-- C1: `requestWithPayment` with `maxRetries = m` issues at most `m + 1`
HTTP requests, and in the maxRetries = 1 scenario where both responses
are the same valid, unexpired 402 and signing succeeds, the call ends
with the terminal max-retries error after exactly two requests — no
third request is issued. -/
theorem c1_retry_bound :
    (∀ (pd : String → Option Int) (now : Int)
      (sf : JsVal → SignedPaymentResult) (resp : Nat → ServerResponse)
      (m : Nat),
      (requestWithPayment pd now sf resp m).requests ≤ m + 1) ∧
    (∀ (pd : String → Option Int) (now : Int)
      (sf : JsVal → SignedPaymentResult) (resp : Nat → ServerResponse)
      (body : JsVal),
      resp 0 = ServerResponse.err402 body →
      resp 1 = ServerResponse.err402 body →
      isValidPaymentRequestClient body = Except.ok true →
      jsDateLt (pd (jsFieldStr body "expiresAt")) (some now) = false →
      (sf body).success = true →
      requestWithPayment pd now sf resp 1 =
        ⟨Outcome.failure "Max retries exceeded for payment request", 2, 2⟩) := by
  constructor
  · intro pd now sf resp m
    have h := rwpGo_requests_le pd now sf resp (m + 1) 0 0
    simpa using h
  · intro pd now sf resp body h0 h1 hv he hs
    show rwpGo pd now sf resp (1 + 1) 0 0 = _
    rw [rwpGo_succ, h0]
    dsimp only
    rw [hv]
    dsimp only
    rw [if_neg (by rw [he]; exact Bool.false_ne_true), if_pos hs]
    show rwpGo pd now sf resp (0 + 1) 1 1 = _
    rw [rwpGo_succ, h1]
    dsimp only
    rw [hv]
    dsimp only
    rw [if_neg (by rw [he]; exact Bool.false_ne_true), if_pos hs]
    rw [rwpGo_zero]

/-- Witness for C1 at a concrete transport, signer and clock. -/
theorem c1_retry_bound_witness :
    (requestWithPayment pdFuture 1760227200000 sfOk resp402s 3).requests ≤ 4 ∧
    requestWithPayment pdFuture 1760227200000 sfOk resp402s 1 =
      ⟨Outcome.failure "Max retries exceeded for payment request", 2, 2⟩ := by
  constructor
  · exact c1_retry_bound.1 pdFuture 1760227200000 sfOk resp402s 3
  · exact c1_retry_bound.2 pdFuture 1760227200000 sfOk resp402s bodyOk
      rfl rfl rfl (by decide) rfl

/-- Unfolding equation for the interceptor's handler on a 402 response,
with the marker insertion reduced away. -/
theorem handleError_402 (pd : String → Option Int) (now : Int)
    (sf : JsVal → Except String String) (st : List Nat) (cfgId : Nat)
    (data : JsVal) :
    handleError pd now sf st cfgId 402 data =
      if st.contains cfgId then
        ⟨st, IAction.reject "Payment already attempted for this request", false⟩
      else if !(isValidPaymentRequestV1 data) then
        ⟨cfgId :: st,
          IAction.reject "Invalid x402 payment request from server", false⟩
      else if jsDateLt (pd (jsFieldStr data "expiresAt")) (some now) then
        ⟨cfgId :: st, IAction.reject "Payment request has expired", false⟩
      else
        match sf data with
        | Except.error e =>
          ⟨cfgId :: st, IAction.reject ("Payment signing failed: " ++ e), true⟩
        | Except.ok tx =>
          ⟨cfgId :: st,
            IAction.retry cfgId
              [("X-PAYMENT", tx),
               ("X-PAYMENT-TOKEN-TYPE", tokenTypeHeader data)],
            true⟩ := rfl

/-- C5 (amended): the orchestration paths reject with the expiration
error, without invoking the signer, exactly when the parsed `expiresAt`
is strictly earlier than the current time (`new Date(expiresAt) <
new Date()`); when `expiresAt` is not strictly in the past — including
`expiresAt` equal to the current time — the signer *is* invoked. -/
theorem c5_expiration_strict :
    (∀ (pd : String → Option Int) (now : Int)
      (sf : JsVal → SignedPaymentResult) (resp : Nat → ServerResponse)
      (body : JsVal) (m : Nat),
      resp 0 = ServerResponse.err402 body →
      isValidPaymentRequestClient body = Except.ok true →
      jsDateLt (pd (jsFieldStr body "expiresAt")) (some now) = true →
      requestWithPayment pd now sf resp m =
        ⟨Outcome.failure "Payment request has expired", 1, 0⟩) ∧
    (∀ (pd : String → Option Int) (now : Int)
      (sf : JsVal → Except String String) (st : List Nat) (cfgId : Nat)
      (data : JsVal),
      st.contains cfgId = false →
      isValidPaymentRequestV1 data = true →
      jsDateLt (pd (jsFieldStr data "expiresAt")) (some now) = true →
      handleError pd now sf st cfgId 402 data =
        ⟨cfgId :: st, IAction.reject "Payment request has expired", false⟩) ∧
    (∀ (pd : String → Option Int) (now : Int)
      (sf : JsVal → SignedPaymentResult) (resp : Nat → ServerResponse)
      (body : JsVal) (m : Nat),
      resp 0 = ServerResponse.err402 body →
      isValidPaymentRequestClient body = Except.ok true →
      jsDateLt (pd (jsFieldStr body "expiresAt")) (some now) = false →
      1 ≤ (requestWithPayment pd now sf resp m).signCalls) ∧
    (∀ (pd : String → Option Int) (now : Int)
      (sf : JsVal → Except String String) (st : List Nat) (cfgId : Nat)
      (data : JsVal),
      st.contains cfgId = false →
      isValidPaymentRequestV1 data = true →
      jsDateLt (pd (jsFieldStr data "expiresAt")) (some now) = false →
      (handleError pd now sf st cfgId 402 data).signerInvoked = true) := by
  refine ⟨?_, ?_, ?_, ?_⟩
  · intro pd now sf resp body m h0 hv he
    show rwpGo pd now sf resp (m + 1) 0 0 = _
    rw [rwpGo_succ, h0]
    dsimp only
    rw [hv]
    dsimp only
    rw [if_pos he]
  · intro pd now sf st cfgId data hm hv he
    rw [handleError_402,
      if_neg (by rw [hm]; exact Bool.false_ne_true),
      if_neg (by rw [hv]; exact Bool.false_ne_true),
      if_pos he]
  · intro pd now sf resp body m h0 hv he
    show 1 ≤ (rwpGo pd now sf resp (m + 1) 0 0).signCalls
    rw [rwpGo_succ, h0]
    dsimp only
    rw [hv]
    dsimp only
    rw [if_neg (by rw [he]; exact Bool.false_ne_true)]
    by_cases hs : (sf body).success = true
    · rw [if_pos hs]
      exact rwpGo_signs_le pd now sf resp m 1 1
    · rw [if_neg hs]
  · intro pd now sf st cfgId data hm hv he
    rw [handleError_402,
      if_neg (by rw [hm]; exact Bool.false_ne_true),
      if_neg (by rw [hv]; exact Bool.false_ne_true),
      if_neg (by rw [he]; exact Bool.false_ne_true)]
    cases sf data <;> rfl

/-- Witness for the amended C5, exercising all four parts at concrete
inputs: a strictly past expiry (parsed to 0, now 1) is rejected with the
signer untouched on both paths, and a non-past expiry reaches the signer. -/
theorem c5_expiration_strict_witness :
    requestWithPayment pdZero 1 sfOk resp402s 1 =
      ⟨Outcome.failure "Payment request has expired", 1, 0⟩ ∧
    handleError pdZero 1 sfV1Ok [] 7 402 bodyOk =
      ⟨[7], IAction.reject "Payment request has expired", false⟩ ∧
    1 ≤ (requestWithPayment pdZero 0 sfOk respThenOk 1).signCalls ∧
    (handleError pdZero 0 sfV1Ok [] 7 402 bodyOk).signerInvoked = true := by
  refine ⟨?_, ?_, ?_, ?_⟩
  · exact c5_expiration_strict.1 pdZero 1 sfOk resp402s bodyOk 1
      rfl rfl (by decide)
  · exact c5_expiration_strict.2.1 pdZero 1 sfV1Ok [] 7 bodyOk
      rfl rfl (by decide)
  · exact c5_expiration_strict.2.2.1 pdZero 0 sfOk respThenOk bodyOk 1
      rfl rfl (by decide)
  · exact c5_expiration_strict.2.2.2 pdZero 0 sfV1Ok [] 7 bodyOk
      rfl rfl (by decide)

/-- C5 counterexample: with `expiresAt` parsing to exactly the current
time (both 0), the claim demands rejection before signing, but the call
signs once and succeeds: the comparison `expiresAt < now` is strict, so
equality is not treated as expired. -/
theorem c5_counterexample :
    jsDateLt (pdZero "2099-01-01T00:00:00.000Z") (some 0) = false ∧
    (requestWithPayment pdZero 0 sfOk respThenOk 1).signCalls = 1 ∧
    (requestWithPayment pdZero 0 sfOk respThenOk 1).outcome =
      Outcome.success (JsVal.str "done") :=
  ⟨rfl, rfl, rfl⟩

/-- A marked request config is rejected outright by the handler on a 402,
with the marker set unchanged. -/
theorem handleError_marked (pd : String → Option Int) (now : Int)
    (sf : JsVal → Except String String) (st : List Nat) (cfgId : Nat)
    (data : JsVal) (h : st.contains cfgId = true) :
    handleError pd now sf st cfgId 402 data =
      ⟨st, IAction.reject "Payment already attempted for this request",
        false⟩ := by
  rw [handleError_402, if_pos h]

/-- An unmarked config is marked by the handler on a 402, whatever the
subsequent validation, expiration and signing outcomes. -/
theorem handleError_marks (pd : String → Option Int) (now : Int)
    (sf : JsVal → Except String String) (st : List Nat) (cfgId : Nat)
    (data : JsVal) (h : st.contains cfgId = false) :
    (handleError pd now sf st cfgId 402 data).state = cfgId :: st := by
  rw [handleError_402, if_neg (by rw [h]; exact Bool.false_ne_true)]
  by_cases hv : (!isValidPaymentRequestV1 data) = true
  · rw [if_pos hv]
  · rw [if_neg hv]
    by_cases he : jsDateLt (pd (jsFieldStr data "expiresAt")) (some now) = true
    · rw [if_pos he]
    · rw [if_neg he]
      cases sf data <;> rfl

/-- Adding one action to a trace adds at most one retry. -/
theorem countRetries_cons_le (a : IAction) (l : List IAction) :
    countRetries (a :: l) ≤ countRetries l + 1 := by
  cases a <;> simp [countRetries]

/-- From a state where the config is already marked, a run of 402s for it
performs no retry at all and leaves the marker set unchanged. -/
theorem run402s_marked (pd : String → Option Int) (now : Int)
    (sf : JsVal → Except String String) (cfgId : Nat) :
    ∀ (datas : List JsVal) (st : List Nat), st.contains cfgId = true →
      countRetries (run402s pd now sf st cfgId datas).1 = 0 ∧
      (run402s pd now sf st cfgId datas).2 = st := by
  intro datas
  induction datas with
  | nil => intro st h; exact ⟨rfl, rfl⟩
  | cons d rest ih =>
    intro st h
    simp only [run402s]
    rw [handleError_marked pd now sf st cfgId d h]
    dsimp only
    refine ⟨?_, (ih st h).2⟩
    show countRetries (run402s pd now sf st cfgId rest).1 = 0
    exact (ih st h).1

/-- Over any run of consecutive 402s for one config object, at most one
retry is ever issued: the first 402 marks the config, and every later
one is rejected. -/
theorem run402s_retries_le_one (pd : String → Option Int) (now : Int)
    (sf : JsVal → Except String String) (cfgId : Nat) :
    ∀ (datas : List JsVal) (st : List Nat),
      countRetries (run402s pd now sf st cfgId datas).1 ≤ 1 := by
  intro datas
  induction datas with
  | nil => intro st; exact Nat.zero_le 1
  | cons d rest ih =>
    intro st
    by_cases hm : st.contains cfgId = true
    · have h := run402s_marked pd now sf cfgId (d :: rest) st hm
      rw [h.1]
      exact Nat.zero_le 1
    · simp only [Bool.not_eq_true] at hm
      simp only [run402s]
      rw [handleError_marks pd now sf st cfgId d hm]
      have hmarked : (cfgId :: st).contains cfgId = true := by simp
      have hrest := (run402s_marked pd now sf cfgId rest (cfgId :: st) hmarked).1
      have hcons := countRetries_cons_le
        (handleError pd now sf st cfgId 402 d).action
        (run402s pd now sf (cfgId :: st) cfgId rest).1
      omega

/-- C2: per request object the interceptor performs at most one
payment-signing-and-retry cycle. A marked config's 402 is rejected with
the terminal `Payment already attempted` error and no retry; an unmarked
config's first 402 (valid, unexpired, signing ok) is re-issued exactly
once — the same config object, now marked, with the payment headers
attached; and over any sequence of 402s for one config at most one retry
is issued in total. -/
theorem c2_one_shot_marker :
    (∀ (pd : String → Option Int) (now : Int)
      (sf : JsVal → Except String String) (st : List Nat) (cfgId : Nat)
      (data : JsVal),
      st.contains cfgId = true →
      handleError pd now sf st cfgId 402 data =
        ⟨st, IAction.reject "Payment already attempted for this request",
          false⟩) ∧
    (∀ (pd : String → Option Int) (now : Int)
      (sf : JsVal → Except String String) (st : List Nat) (cfgId : Nat)
      (data : JsVal) (tx : String),
      st.contains cfgId = false →
      isValidPaymentRequestV1 data = true →
      jsDateLt (pd (jsFieldStr data "expiresAt")) (some now) = false →
      sf data = Except.ok tx →
      handleError pd now sf st cfgId 402 data =
        ⟨cfgId :: st,
          IAction.retry cfgId
            [("X-PAYMENT", tx),
             ("X-PAYMENT-TOKEN-TYPE", tokenTypeHeader data)],
          true⟩) ∧
    (∀ (pd : String → Option Int) (now : Int)
      (sf : JsVal → Except String String) (cfgId : Nat)
      (datas : List JsVal) (st : List Nat),
      countRetries (run402s pd now sf st cfgId datas).1 ≤ 1) := by
  refine ⟨?_, ?_, ?_⟩
  · intro pd now sf st cfgId data h
    exact handleError_marked pd now sf st cfgId data h
  · intro pd now sf st cfgId data tx hm hv he hsf
    rw [handleError_402,
      if_neg (by rw [hm]; exact Bool.false_ne_true),
      if_neg (by rw [hv]; exact Bool.false_ne_true),
      if_neg (by rw [he]; exact Bool.false_ne_true),
      hsf]
  · intro pd now sf cfgId datas st
    exact run402s_retries_le_one pd now sf cfgId datas st

/-- Witness for C2: a marked config is rejected, an unmarked one is
retried exactly once with the payment headers. -/
theorem c2_one_shot_marker_witness :
    handleError pdFuture 0 sfV1Ok [7] 7 402 bodyOk =
      ⟨[7], IAction.reject "Payment already attempted for this request",
        false⟩ ∧
    handleError pdFuture 0 sfV1Ok [] 7 402 bodyOk =
      ⟨[7],
        IAction.retry 7
          [("X-PAYMENT", "cafe"), ("X-PAYMENT-TOKEN-TYPE", "STX")],
        true⟩ ∧
    countRetries (run402s pdFuture 0 sfV1Ok [] 7 [bodyOk, bodyOk, bodyOk]).1 ≤ 1 := by
  refine ⟨?_, ?_, ?_⟩
  · exact c2_one_shot_marker.1 pdFuture 0 sfV1Ok [7] 7 bodyOk rfl
  · have h := c2_one_shot_marker.2.1 pdFuture 0 sfV1Ok [] 7 bodyOk "cafe"
      rfl rfl (by decide) rfl
    simpa using h
  · exact c2_one_shot_marker.2.2 pdFuture 0 sfV1Ok 7 [bodyOk, bodyOk, bodyOk] []

/-- C10: the module-level marker set only ever grows — no handler outcome
removes an entry — and once a config is marked every later 402 run for it
(including one from a separate logical call reusing the object) performs
no retry and leaves the config marked. -/
theorem c10_marker_permanent :
    (∀ (pd : String → Option Int) (now : Int)
      (sf : JsVal → Except String String) (st : List Nat)
      (cfgId status : Nat) (data : JsVal),
      st ⊆ (handleError pd now sf st cfgId status data).state) ∧
    (∀ (pd : String → Option Int) (now : Int)
      (sf : JsVal → Except String String) (st : List Nat) (cfgId : Nat)
      (datas : List JsVal),
      st.contains cfgId = true →
      countRetries (run402s pd now sf st cfgId datas).1 = 0 ∧
      (run402s pd now sf st cfgId datas).2.contains cfgId = true) := by
  constructor
  · intro pd now sf st cfgId status data
    by_cases hst : (status != 402) = true
    · unfold handleError
      rw [if_pos hst]
      exact List.Subset.refl st
    · have h402 : status = 402 := by simpa using hst
      subst h402
      rw [handleError_402]
      by_cases hm : st.contains cfgId = true
      · rw [if_pos hm]
        exact List.Subset.refl st
      · rw [if_neg hm]
        by_cases hv : (!isValidPaymentRequestV1 data) = true
        · rw [if_pos hv]
          exact List.subset_cons_self cfgId st
        · rw [if_neg hv]
          by_cases he :
              jsDateLt (pd (jsFieldStr data "expiresAt")) (some now) = true
          · rw [if_pos he]
            exact List.subset_cons_self cfgId st
          · rw [if_neg he]
            cases sf data with
            | error e => exact List.subset_cons_self cfgId st
            | ok tx => exact List.subset_cons_self cfgId st
  · intro pd now sf st cfgId datas h
    have hmk := run402s_marked pd now sf cfgId datas st h
    refine ⟨hmk.1, ?_⟩
    rw [hmk.2]
    exact h

/-- Witness for C10 at a concrete marked config and a two-402 run. -/
theorem c10_marker_permanent_witness :
    countRetries (run402s pdFuture 0 sfV1Ok [7] 7 [bodyOk, bodyOk]).1 = 0 ∧
    (run402s pdFuture 0 sfV1Ok [7] 7 [bodyOk, bodyOk]).2.contains 7 = true := by
  exact c10_marker_permanent.2 pdFuture 0 sfV1Ok [7] 7 [bodyOk, bodyOk] rfl

/-- Every sextet produced from in-range bytes is below 64. -/
theorem toSextets_lt64 : ∀ (bytes : List Nat), (∀ b ∈ bytes, b < 256) →
    ∀ x ∈ toSextets bytes, x < 64
  | [], _ => by intro x hx; simp [toSextets] at hx
  | [b0], h => by
    intro x hx
    have hb0 : b0 < 256 := h b0 (by simp)
    simp only [toSextets, List.mem_cons, List.not_mem_nil, or_false] at hx
    rcases hx with rfl | rfl <;> omega
  | [b0, b1], h => by
    intro x hx
    have hb0 : b0 < 256 := h b0 (by simp)
    have hb1 : b1 < 256 := h b1 (by simp)
    simp only [toSextets, List.mem_cons, List.not_mem_nil, or_false] at hx
    rcases hx with rfl | rfl | rfl <;> omega
  | b0 :: b1 :: b2 :: rest, h => by
    intro x hx
    have hb0 : b0 < 256 := h b0 (by simp)
    have hb1 : b1 < 256 := h b1 (by simp)
    have hb2 : b2 < 256 := h b2 (by simp)
    simp only [toSextets, List.mem_cons] at hx
    rcases hx with rfl | rfl | rfl | rfl | hx
    · omega
    · omega
    · omega
    · omega
    · exact toSextets_lt64 rest (fun b hb => h b (by simp [hb])) x hx

/-- Unpacking inverts packing on in-range bytes. -/
theorem fromSextets_toSextets : ∀ (bytes : List Nat),
    (∀ b ∈ bytes, b < 256) → fromSextets (toSextets bytes) = bytes
  | [], _ => rfl
  | [b0], h => by
    have hb0 : b0 < 256 := h b0 (by simp)
    simp only [toSextets, fromSextets]
    congr 1
    omega
  | [b0, b1], h => by
    have hb0 : b0 < 256 := h b0 (by simp)
    have hb1 : b1 < 256 := h b1 (by simp)
    simp only [toSextets, fromSextets]
    congr 1
    · omega
    · congr 1
      omega
  | b0 :: b1 :: b2 :: rest, h => by
    have hb0 : b0 < 256 := h b0 (by simp)
    have hb1 : b1 < 256 := h b1 (by simp)
    have hb2 : b2 < 256 := h b2 (by simp)
    have ih := fromSextets_toSextets rest (fun b hb => h b (by simp [hb]))
    simp only [toSextets, fromSextets]
    rw [ih]
    congr 1
    · omega
    · congr 1
      · omega
      · congr 1
        omega

/-- Decoding a character the encoder produced recovers the sextet. -/
theorem decodeB64Char_encode : ∀ n < 64,
    decodeB64Char (encodeB64Char n) = some n := by decide

/-- The character-level codec cancels over a list of sextets. -/
theorem filterMap_decode_encode : ∀ (ss : List Nat), (∀ x ∈ ss, x < 64) →
    List.filterMap decodeB64Char (ss.map encodeB64Char) = ss := by
  intro ss
  induction ss with
  | nil => intro h; rfl
  | cons s rest ih =>
    intro h
    have hs : s < 64 := h s (by simp)
    rw [List.map_cons, List.filterMap_cons, decodeB64Char_encode s hs,
      ih (fun x hx => h x (by simp [hx]))]

/-- The lenient decoder drops the `=` padding characters. -/
theorem decodeB64Char_pad : decodeB64Char '=' = none := by decide

/-- Base64 decoding inverts encoding on in-range byte lists. -/
theorem b64decode_encode (bytes : List Nat) (h : ∀ b ∈ bytes, b < 256) :
    b64decodeBytes (b64encodeBytes bytes) = bytes := by
  unfold b64encodeBytes b64decodeBytes
  have hpad : List.filterMap decodeB64Char
      (match bytes.length % 3 with
        | 1 => ['=', '=']
        | 2 => ['=']
        | _ => []) = [] := by
    have h3 : bytes.length % 3 = 0 ∨ bytes.length % 3 = 1 ∨
        bytes.length % 3 = 2 := by omega
    rcases h3 with h3 | h3 | h3 <;> rw [h3] <;> rfl
  show fromSextets (List.filterMap decodeB64Char
    ((toSextets bytes).map encodeB64Char ++ _)) = bytes
  rw [List.filterMap_append, filterMap_decode_encode _ (toSextets_lt64 bytes h),
    hpad, List.append_nil, fromSextets_toSextets bytes h]

/-- Packing a nonempty byte list yields a nonempty sextet list. -/
theorem toSextets_ne_nil (bytes : List Nat) (h : bytes ≠ []) :
    toSextets bytes ≠ [] := by
  cases bytes with
  | nil => exact absurd rfl h
  | cons b0 rest =>
    cases rest with
    | nil => simp [toSextets]
    | cons b1 rest2 =>
      cases rest2 with
      | nil => simp [toSextets]
      | cons b2 rest3 => simp [toSextets]

/-- Encoding a nonempty byte list yields a nonempty header string. -/
theorem b64encodeBytes_ne_empty (bytes : List Nat) (h : bytes ≠ []) :
    b64encodeBytes bytes ≠ "" := by
  have hne := toSextets_ne_nil bytes h
  intro hcontra
  have hdata := congrArg String.data hcontra
  have hd : (toSextets bytes).map encodeB64Char ++
      (match bytes.length % 3 with
        | 1 => ['=', '=']
        | 2 => ['=']
        | _ => []) = ([] : List Char) := hdata
  have hmap := (List.append_eq_nil.mp hd).1
  exact hne (List.map_eq_nil_iff.mp hmap)

/-- C9: `decodeXPaymentResponse` returns null on a missing header, an
empty header, and any header whose decoded bytes the JSON collaborator
rejects; and for every header `encodeXPaymentResponse` produced from a
payment-response object carrying `txId` and `status` (with a
stringify/parse collaborator pair that round-trips on it, emitting at
least one in-range byte), decoding returns the object, non-null. -/
theorem c9_payment_response_codec :
    (∀ parseB : List Nat → Option JsVal,
      decodeXPaymentResponse parseB none = none) ∧
    (∀ parseB : List Nat → Option JsVal,
      decodeXPaymentResponse parseB (some "") = none) ∧
    (∀ (parseB : List Nat → Option JsVal) (h : String),
      parseB (b64decodeBytes h) = none →
      decodeXPaymentResponse parseB (some h) = none) ∧
    (∀ (parseB : List Nat → Option JsVal) (stringifyB : JsVal → List Nat)
      (resp : JsVal),
      (∀ b ∈ stringifyB resp, b < 256) →
      stringifyB resp ≠ [] →
      parseB (stringifyB resp) = some resp →
      hasStrField resp "txId" = true →
      hasStrField resp "status" = true →
      decodeXPaymentResponse parseB
        (some (encodeXPaymentResponse stringifyB resp)) = some resp) := by
  refine ⟨?_, ?_, ?_, ?_⟩
  · intro parseB
    rfl
  · intro parseB
    rfl
  · intro parseB h hparse
    unfold decodeXPaymentResponse
    dsimp only
    by_cases he : (h == "") = true
    · rw [if_pos he]
    · rw [if_neg he, hparse]
  · intro parseB stringifyB resp hrange hne hround _ _
    unfold decodeXPaymentResponse encodeXPaymentResponse
    dsimp only
    have henc := b64encodeBytes_ne_empty (stringifyB resp) hne
    rw [if_neg (fun hc => henc (eq_of_beq hc)),
      b64decode_encode (stringifyB resp) hrange, hround]

/-- Witness for C9: a concrete collaborator pair that round-trips the
bytes `[123, 125]` to `resp9`; the encoded header decodes back to the
object, and empty or unparseable headers decode to null. -/
theorem c9_payment_response_codec_witness :
    decodeXPaymentResponse pB9 (some "") = none ∧
    decodeXPaymentResponse pB9 (some "!!!") = none ∧
    decodeXPaymentResponse pB9
      (some (encodeXPaymentResponse sB9 resp9)) = some resp9 := by
  refine ⟨?_, ?_, ?_⟩
  · exact c9_payment_response_codec.2.1 pB9
  · exact c9_payment_response_codec.2.2.1 pB9 "!!!" rfl
  · exact c9_payment_response_codec.2.2.2 pB9 sB9 resp9
      (by decide) (by decide) rfl rfl rfl
